import Mathlib

/-
  Verification of the subfork task worker/queue subsystem.

  Shallow embedding of:
    - src/lib/subfork/api/task.py   (is_valid_task, Task.is_done, Task.save, Queue)
    - src/lib/subfork/worker.py     (Worker.get_tasks, validate_worker_input,
      the import_function interaction, and process_task)

  Python values reachable in task records are modelled by `Value` (JSON values
  plus tuples and an opaque non-serializable object), task data dicts by
  association lists with unique keys maintained by `setKey`, and the remote
  service plus the dynamic import by an explicit environment record.
-/

set_option maxHeartbeats 1600000

namespace Subfork

/-- Model of the Python values that flow through task records: JSON values,
plus tuples (distinct from lists for `isinstance` checks) and an opaque
non-JSON-serializable object `raw`. -/
inductive Value where
  | null : Value
  | bool : Bool → Value
  | int : Int → Value
  | str : String → Value
  | arr : List Value → Value
  | tup : List Value → Value
  | obj : List (String × Value) → Value
  | raw : Value

/-- Python truthiness of a `Value` (`bool(v)`). -/
def truthy : Value → Bool
  | .null => false
  | .bool b => b
  | .int n => n != 0
  | .str s => s != ""
  | .arr xs => !xs.isEmpty
  | .tup xs => !xs.isEmpty
  | .obj kvs => !kvs.isEmpty
  | .raw => true

/-- Models `type(v) is str`. -/
def Value.isStr : Value → Bool
  | .str _ => true
  | _ => false

/-- Models `type(v) is dict`. -/
def Value.isObj : Value → Bool
  | .obj _ => true
  | _ => false

/-- JSON string escaping used by `json.dumps` (backslash and double quote;
the strings in this development contain no control characters). -/
def jstr (s : String) : String :=
  "\"" ++ (s.replace ("\\") ("\\\\")).replace ("\"") ("\\\"") ++ "\""

mutual

/-- Model of `json.dumps(v)` with the default separators; `none` models the `TypeError`
raised on a non-serializable object. Tuples serialize as JSON arrays. -/
def dumps : Value → Option String
  | .null => some ("null")
  | .bool true => some ("true")
  | .bool false => some ("false")
  | .int n => some (toString n)
  | .str s => some (jstr s)
  | .arr xs => (dumpsList xs).map (fun b => "[" ++ b ++ "]")
  | .tup xs => (dumpsList xs).map (fun b => "[" ++ b ++ "]")
  | .obj kvs => (dumpsObj kvs).map (fun b => "\x7b" ++ b ++ "\x7d")
  | .raw => none

/-- Comma-joined serialization of a list of values. -/
def dumpsList : List Value → Option String
  | [] => some ("")
  | [x] => dumps x
  | x :: xs =>
      match dumps x, dumpsList xs with
      | some a, some b => some (a ++ ", " ++ b)
      | _, _ => none

/-- Comma-joined serialization of the key/value pairs of a dict. -/
def dumpsObj : List (String × Value) → Option String
  | [] => some ("")
  | [(k, v)] => (dumps v).map (fun b => jstr k ++ ": " ++ b)
  | (k, v) :: kvs =>
      match dumps v, dumpsObj kvs with
      | some a, some b => some (jstr k ++ ": " ++ a ++ ", " ++ b)
      | _, _ => none

end

/-- Task data: a Python dict, modelled as an association list whose key
uniqueness is maintained by `setKey`. -/
def TaskData := List (String × Value)

instance : Inhabited TaskData := ⟨([] : List (String × Value))⟩

/-- Model of `d.get(k)`: `some v` when the key is present (possibly with value `null`),
`none` when absent. -/
def get (d : TaskData) (k : String) : Option Value :=
  match d with
  | [] => none
  | (k0, v0) :: rest => if k0 == k then some v0 else get rest k

/-- Model of `d[k] = v` (also the effect of `dict.update` for one key): replaces the
value in place when the key exists, appends otherwise. -/
def setKey (d : TaskData) (k : String) (v : Value) : TaskData :=
  match d with
  | [] => [(k, v)]
  | (k0, v0) :: rest =>
      if k0 == k then (k0, v) :: rest
      else (k0, v0) :: setKey rest k v

/-- Model of `d.update(kvs)` for several keys, applied left to right. -/
def updateAll (d : TaskData) (kvs : List (String × Value)) : TaskData :=
  kvs.foldl (fun acc p => setKey acc p.1 p.2) d

/-- config.TASK_MAX_BYTES. -/
def TASK_MAX_BYTES : Nat := 10240

/-- Model of `sys.getsizeof(task_data)`: CPython reports the shallow
allocation size of the dict object, a figure that grows with the number of
entries and is independent of the entry contents. Modelled as an affine
function of the entry count; every task in this development is far below
the 10240-byte cap, so the exact coefficients are immaterial. -/
def getsizeof (d : TaskData) : Nat :=
  64 + 16 * d.length

/-- src/lib/subfork/api/task.py `is_valid_task`: requires a non-empty dict,
an `id` key, `results` a string whenever it is truthy, size within
TASK_MAX_BYTES, and JSON serializability. -/
def is_valid_task (d : TaskData) : Bool :=
  if d.isEmpty then false
  else if (get d ("id")).isNone then false
  else
    let results := (get d ("results")).getD .null
    if truthy results && !results.isStr then false
    else if getsizeof d > TASK_MAX_BYTES then false
    else (dumps (.obj d)).isSome

/-- Model of `d.get(k) is not None`: key present with a non-null value. -/
def getNotNone (d : TaskData) (k : String) : Bool :=
  match get d k with
  | some .null => false
  | some _ => true
  | none => false

/-- src/lib/subfork/api/task.py `Task.is_done`. -/
def is_done (d : TaskData) : Bool :=
  getNotNone d ("completed") || getNotNone d ("error") || getNotNone d ("exitcode")

/-- src/lib/subfork/api/task.py `Task.get_num_failures`:
`self.data().get("failures", 0)`. -/
def get_num_failures (d : TaskData) : Value :=
  (get d ("failures")).getD (.int 0)

/-- src/lib/subfork/api/task.py `Task.get_worker_data`:
`self.data().get("data", {})`. -/
def get_worker_data (d : TaskData) : Value :=
  (get d ("data")).getD (.obj [])

/-! ### Function signatures and argument binding

Model of `inspect.signature(func)` for the positional-or-keyword parameter
lists that worker functions use (parameters with defaults come last, plus
optional `*args` / `**kwargs` catch-alls; positional-only and keyword-only
parameters do not occur in this code base and are not modelled). -/

/-- One declared parameter: its name and whether it has a default value. -/
structure Param where
  name : String
  hasDefault : Bool

/-- A function signature. -/
structure Sig where
  params : List Param
  varArgs : Bool := false
  varKw : Bool := false

/-- Number of parameters without defaults. -/
def Sig.required (sig : Sig) : Nat :=
  (sig.params.filter (fun p => !p.hasDefault)).length

/-- Model of `signature.bind(*args)` with `nargs` positional arguments succeeds iff
every non-default parameter is covered and no extra argument is left over
(unless the signature has `*args`). -/
def bindPos (sig : Sig) (nargs : Nat) : Bool :=
  decide (sig.required ≤ nargs) && (decide (nargs ≤ sig.params.length) || sig.varArgs)

/-- Model of `signature.bind(**kwargs)` with the given key set succeeds iff every key
names a declared parameter (or the signature has `**kwargs`) and every
non-default parameter receives a key. -/
def bindKw (sig : Sig) (keys : List String) : Bool :=
  keys.all (fun k => sig.params.any (fun p => p.name == k) || sig.varKw)
    && sig.params.all (fun p => p.hasDefault || keys.contains p.name)

/-- src/lib/subfork/worker.py `validate_worker_input`: binds tuples as
positional arguments and dicts as keyword arguments (`apply_defaults` never
fails after a successful bind); any other input type is invalid. -/
def validate_worker_input (sig : Sig) (input_data : Value) : Bool :=
  match input_data with
  | .tup xs => bindPos sig xs.length
  | .obj kvs => bindKw sig (kvs.map Prod.fst)
  | _ => false

/-! ### Task.save -/

/-- src/lib/subfork/api/task.py `Task.save`, with the remote response to the
`task/save` request passed in as `resp` (`none` models a falsy or error
response). Returns the number of HTTP requests sent together with the
refreshed task data (`none` models the Python `False` return). When
`is_valid()` fails, no request is sent. -/
def save (d : TaskData) (resp : Option TaskData) : Nat × Option TaskData :=
  if is_valid_task d then
    match resp with
    | some rd => if is_valid_task rd then (1, some rd) else (1, none)
    | none => (1, none)
  else (0, none)

/-! ### Worker.get_tasks -/

/-- src/lib/subfork/worker.py `Worker.get_tasks`, one polling cycle.
`queue_size` is the `queue/size` response, `chunk_size` the batch size, and
`responses` the successive `task/dequeue` results (`none` is an empty or
invalid dequeue response, which `dequeue_task` turns into `None`). The loop
body runs `min(queue_size, chunk_size)` times, one dequeue request per
iteration; empty results are skipped without incrementing `task_num`.
Returns the numbered yielded tasks. -/
def get_tasks_loop (iters : Nat) (responses : List (Option TaskData)) (task_num : Nat) :
    List (Nat × TaskData) :=
  match iters with
  | 0 => []
  | n + 1 =>
      match responses with
      | [] => get_tasks_loop n [] task_num
      | none :: rest => get_tasks_loop n rest task_num
      | some t :: rest => (task_num + 1, t) :: get_tasks_loop n rest (task_num + 1)

/-- One `get_tasks` cycle: dequeue attempts bounded by
`min(queue_size, chunk_size)`. -/
def get_tasks (queue_size chunk_size : Nat) (responses : List (Option TaskData)) :
    List (Nat × TaskData) :=
  get_tasks_loop (min queue_size chunk_size) responses 0

/-- Number of `task/dequeue` requests issued by one `get_tasks` cycle: one
per loop iteration. -/
def get_tasks_requests (queue_size chunk_size : Nat) : Nat :=
  min queue_size chunk_size

/-- A remote queue holding a list of (valid) tasks: `queue/size` reports its
length and each `task/dequeue` pops the head. `get_tasks` against such a
queue, returning the yielded tasks and the remaining queue. -/
def get_tasks_from_queue (queue : List TaskData) (chunk_size : Nat) :
    List (Nat × TaskData) × List TaskData :=
  let k := min queue.length chunk_size
  (get_tasks queue.length chunk_size (queue.map some), queue.drop k)

/-! ### process_task

src/lib/subfork/worker.py `process_task`. The dynamic import, the clock and
the remote responses are passed in through an environment record; the
observable effects (requests issued, final local task state, return value)
come back in a result record. An `Except.error` models an exception escaping
`process_task` itself (possible only from `json.dumps` in the `finally`
block, or from a non-integer `failures` value, whose Python `TypeError`
at the first comparison is modelled at extraction time). -/

/-- A resolved worker function: `import_function` returns the module and the
function together (or `(None, None)` on failure, modelled as a `none`
result of the import). `impl` is the behavior of calling the function on the bound
input: a result value or a raised exception message. -/
structure Func where
  name : String
  moduleFile : String
  sig : Sig
  impl : Value → Except String Value

/-- The fields of the `TaskRunner`/`Worker` pair that `process_task` reads:
the function import path, the retry limit and the `runner.sample().data()`
snapshot. -/
structure Runner where
  funcName : String
  limit : Int
  sampleData : Value

/-- The environment of one `process_task` call: the `import_function` result,
the two `util.get_time()` readings, and the remote responses to `task/save`
and `task/requeue`. -/
structure Env where
  importResult : Option Func
  now1 : Int
  now2 : Int
  saveResp : Option TaskData
  requeueResp : Bool

/-- Outcome of the `try` block: normal completion (with the updated task,
the recorded input validity and the results value), or a caught exception
(with the updated task, the value of `input_is_valid` at raise time, whether
the worker function call was attempted, and the exception message). -/
inductive TryExit where
  | ok (t : TaskData) (inputValid : Bool) (results : Value)
  | exn (t : TaskData) (inputValid : Option Bool) (executed : Bool) (msg : String)

/-- Calling the worker function: `worker_func(**worker_data)` when the data
is a dict, `worker_func(worker_data)` (one positional argument) otherwise.
A binding mismatch raises `TypeError` at the call (message paraphrased). -/
def invoke (f : Func) (data : Value) : Except String Value :=
  match data with
  | .obj kvs =>
      if bindKw f.sig (kvs.map Prod.fst) then f.impl data
      else .error ("TypeError: bad keyword arguments to " ++ f.name)
  | _ =>
      if bindPos f.sig 1 then f.impl data
      else .error ("TypeError: bad positional argument to " ++ f.name)

/-- Message of the `AttributeError` raised by `worker_func.__name__` when the import
failed and `worker_func` is `None` (CPython message paraphrased without
quote characters). -/
def attrErr : String :=
  "AttributeError: NoneType object has no attribute __name__"

/-- The `try` block of `process_task` (worker.py lines 208-233). -/
def tryBody (r : Runner) (env : Env) (t : TaskData) : TryExit :=
  -- worker_mod, worker_func = import_function(runner.func_name)
  let importRes := env.importResult
  -- worker_data = task.get_worker_data()
  let workerData := get_worker_data t
  -- `if not worker_mod and worker_func: raise Exception(...)`: import_function
  -- yields the module and function together, so worker_mod is None exactly
  -- when worker_func is, and this guard can never fire
  if importRes.isNone && importRes.isSome then
    .exn t none false ("error getting worker function: " ++ r.funcName)
  else
    match importRes with
    | none =>
        -- building the func/worker update dict evaluates worker_func.__name__,
        -- which raises AttributeError on None before the update is applied
        .exn t none false attrErr
    | some f =>
        let t2 := updateAll t
          [ ("func", .obj [("name", .str f.name), ("module", .str f.moduleFile)]),
            ("worker", r.sampleData) ]
        -- input_is_valid = validate_worker_input(worker_func, worker_data)
        let iv := validate_worker_input f.sig workerData
        -- execute worker function
        match invoke f workerData with
        | .ok res => .ok t2 iv res
        | .error e => .exn t2 (some iv) true e

/-- Observable outcome of one `process_task` call. -/
structure ProcResult where
  retval : Option Int
  task : TaskData
  dispatched : Bool
  executed : Bool
  saveCalls : Nat
  saveRequests : Nat
  requeueCalls : Nat
  success : Option Bool
  inputValid : Option Bool
  failures : Int

/-- Result of the two early-return guard paths: nothing executed, nothing
requested, `None` returned. -/
def noopResult (t : TaskData) (n : Int) : ProcResult :=
  { retval := none, task := t, dispatched := false, executed := false,
    saveCalls := 0, saveRequests := 0, requeueCalls := 0,
    success := none, inputValid := none, failures := n }

/-- The `error` field written by the `finally` block: `None` or the message. -/
def errValue : Option String → Value
  | none => .null
  | some s => .str s

/-- The tail of the `finally` block once the final update dict has been
evaluated without an exception: apply the update, call `task.save()`, decide
the requeue, and produce the returned value (`return 1` from the `else`
branch inside `finally`, or the trailing `return exitcode`). -/
def finallyCore (r : Runner) (env : Env) (t : TaskData) (success : Bool)
    (errMsg : Option String) (exitcode : Int) (nPost : Int) (iv : Option Bool)
    (executed : Bool) (resStr : String) (s : Int) : ProcResult :=
  let t2 := updateAll t
    [ ("completed", .int env.now2),
      ("elapsed_time", .int (env.now2 - s)),
      ("error", errValue errMsg),
      ("exitcode", .int exitcode),
      ("failures", .int nPost),
      ("results", .str resStr) ]
  -- resp = task.save()
  let sres := save t2 env.saveResp
  -- requeue iff not success and num_failures < limit and input_is_valid;
  -- on the requeue branch the trailing `return exitcode` runs, on the other
  -- branch `return 1` fires inside the finally block (one record, with the
  -- branch condition inlined into the requeue count and the return value)
  let requeue := !success && decide (nPost < r.limit) && decide (iv = some true)
  { retval := some (if requeue then exitcode else 1),
    task := t2, dispatched := true, executed := executed,
    saveCalls := 1, saveRequests := sres.1,
    requeueCalls := if requeue then 1 else 0,
    success := some success, inputValid := iv, failures := nPost }

/-- The `finally` block of `process_task` (worker.py lines 245-276), plus the
final `return exitcode`. The update dict is evaluated first, in source order:
`task.data().get("started", now)` (raising on a non-integer value, which
cannot happen since `started` is set at the top of `process_task`), then
`json.dumps(results)`, which raises on a non-serializable worker return
value; either exception escapes `process_task` before any save. -/
def finallyPart (r : Runner) (env : Env) (t : TaskData) (success : Bool)
    (errMsg : Option String) (exitcode : Int) (nPost : Int) (iv : Option Bool)
    (executed : Bool) (results : Value) : Except String ProcResult :=
  match get t ("started") with
  | some (.int s) =>
      match dumps results with
      | none => .error ("TypeError: results are not JSON serializable")
      | some resStr =>
          .ok (finallyCore r env t success errMsg exitcode nPost iv executed resStr s)
  | none =>
      match dumps results with
      | none => .error ("TypeError: results are not JSON serializable")
      | some resStr =>
          .ok (finallyCore r env t success errMsg exitcode nPost iv executed resStr env.now2)
  | some _ => .error ("TypeError: non-integer started value")

/-- The body of `process_task` from the retry-budget check on, applied to
the task record already carrying the `started` update. -/
def processBody (r : Runner) (env : Env) (t1 : TaskData) : Except String ProcResult :=
  -- num_failures = task.get_num_failures()
  match get_num_failures t1 with
  | .int n =>
      -- `if num_failures and (num_failures > runner.limit): return`
      if (n != 0) && decide (n > r.limit) then .ok (noopResult t1 n)
      else
        match tryBody r env t1 with
        | .ok t2 iv results =>
            -- `else: success = True`
            finallyPart r env t2 true none 0 n (some iv) true results
        | .exn t2 iv executed msg =>
            -- `except: success = False; error = str(e); exitcode = 1;
            --  num_failures += 1`
            finallyPart r env t2 false (some msg) 1 (n + 1) iv executed .null
  | _ =>
      -- a non-integer truthy failures value makes Python raise TypeError at
      -- the comparison; modelled at extraction (all claims use integer or
      -- absent failure counts)
      .error ("TypeError: unorderable failures value")

/-- src/lib/subfork/worker.py `process_task` (lines 171-276). A `Task`
instance is always truthy, so of the guard `if not task or not
task.is_valid()` only the validity check can fire on an actual task
record. After the guard, `task.update({"started": util.get_time()})` runs
and the rest of the function is `processBody`. -/
def process_task (r : Runner) (env : Env) (t : TaskData) : Except String ProcResult :=
  if !is_valid_task t then .ok (noopResult t 0)
  else processBody r env (setKey t ("started") (.int env.now1))

/-! ### Specification-side definitions

These definitions follow the spec's words, to be compared with the
source-derived ones above in the refinement claims. -/

/-- The spec's notion of a field being set: present with a non-null value. -/
def presentNonNull (d : TaskData) (k : String) : Bool :=
  match get d k with
  | some .null => false
  | some _ => true
  | none => false

/-- Validity as glossed by the spec: has an `id`, `results` is a string if
present (read charitably as present with a non-null value), JSON-serializable,
and total size within the 10,240-byte cap. -/
def is_valid_task_spec (d : TaskData) : Bool :=
  (get d ("id")).isSome
    && (match get d ("results") with
        | some .null => true
        | some v => v.isStr
        | none => true)
    && decide (getsizeof d ≤ TASK_MAX_BYTES)
    && (dumps (.obj d)).isSome

/-- Input validation as glossed by the spec: bind as keyword arguments when
the data is a mapping, as positional arguments when it is a sequence (Python
sequences: lists, tuples and strings). -/
def validate_input_spec (sig : Sig) (data : Value) : Bool :=
  match data with
  | .obj kvs => bindKw sig (kvs.map Prod.fst)
  | .arr xs => bindPos sig xs.length
  | .tup xs => bindPos sig xs.length
  | .str s => bindPos sig s.length
  | _ => false

/-- The amended validity gloss: `results` must be a string only when it is
truthy (the code skips the type check for falsy values of any type). -/
def is_valid_task_amended (d : TaskData) : Bool :=
  (get d ("id")).isSome
    && (!truthy ((get d ("results")).getD .null)
          || ((get d ("results")).getD .null).isStr)
    && decide (getsizeof d ≤ TASK_MAX_BYTES)
    && (dumps (.obj d)).isSome

/-! ### Concrete inputs for witnesses and counterexamples -/

/-- Signature of a worker function with one required parameter `x`. -/
def sigX : Sig := { params := [{ name := "x", hasDefault := false }] }

/-- Signature of a worker function with two required parameters. -/
def sigAB : Sig :=
  { params := [{ name := "a", hasDefault := false }, { name := "b", hasDefault := false }] }

/-- Signature of a `**kwargs` worker function (such as `subfork.worker.throw`). -/
def sigKw : Sig := { params := [], varKw := true }

/-- A worker function that returns its input unchanged. -/
def fEcho : Func :=
  { name := "echo", moduleFile := "subfork/worker.py", sig := sigKw,
    impl := fun v => .ok v }

/-- A worker function that raises `Exception("boom")`. -/
def fBoom : Func :=
  { name := "throw", moduleFile := "subfork/worker.py", sig := sigKw,
    impl := fun _ => .error ("boom") }

/-- A runner with retry limit 2 (the default `config.TASK_RETRY_LIMIT`). -/
def r0 : Runner :=
  { funcName := "subfork.worker.echo", limit := 2, sampleData := .obj [] }

/-- A runner with retry limit 1. -/
def rLim1 : Runner :=
  { funcName := "subfork.worker.echo", limit := 1, sampleData := .obj [] }

/-- Environment: import resolves to `fEcho`, save accepted. -/
def envEcho : Env :=
  { importResult := some fEcho, now1 := 100, now2 := 105,
    saveResp := some [("id", .int 1)], requeueResp := true }

/-- Environment: import resolves to `fBoom`, save accepted. -/
def envBoom : Env :=
  { importResult := some fBoom, now1 := 100, now2 := 105,
    saveResp := some [("id", .int 1)], requeueResp := true }

/-- Environment: the function import path does not resolve. -/
def envNoImport : Env :=
  { importResult := none, now1 := 100, now2 := 105,
    saveResp := some [("id", .int 1)], requeueResp := true }

/-- A valid task with a dict payload. -/
def tOk : TaskData := [("id", .int 1), ("data", .obj [("x", .int 7)])]

/-- A valid task that has already failed 5 times. -/
def tOver : TaskData := [("id", .int 1), ("failures", .int 5)]

/-- A freshly dequeued task: none of completed/error/exitcode set. -/
def tFresh : TaskData :=
  [("id", .int 7), ("data", .obj []), ("queue", .str "render")]

/-- A task with `exitcode = 0` and no other lifecycle field. -/
def tExit0 : TaskData := [("id", .int 7), ("exitcode", .int 0)]

/-- A task whose `results` field is the falsy non-string `0`. -/
def tBadResults : TaskData := [("id", .int 1), ("results", .int 0)]

/-- A valid remote response task. -/
def tResp : TaskData := [("id", .int 2)]

/-- A valid task whose payload is a list (a JSON array decodes to a Python
list, not a tuple). -/
def tListData : TaskData := [("id", .int 1), ("data", .arr [])]

/-- Three tasks sitting in the remote `render` queue. -/
def tA : TaskData := [("id", .int 11)]

def tB : TaskData := [("id", .int 12)]

def tC : TaskData := [("id", .int 13)]

/-- The observable result of a `process_task` call that completed without an
escaping exception (defaulting to the no-op result otherwise, which never
happens at the inputs where this is used). -/
def runResult (r : Runner) (env : Env) (t : TaskData) : ProcResult :=
  (process_task r env t).toOption.getD (noopResult [] 0)

/-- Outcome of a successful run on the valid dict-payload task. -/
def resEchoOk : ProcResult := runResult r0 envEcho tOk

/-- Outcome of a failing run (worker raises `boom`) within the retry budget. -/
def resBoom : ProcResult := runResult r0 envBoom tOk

/-- Outcome of a run on a task whose failures exceed the limit. -/
def resOver : ProcResult := runResult rLim1 envEcho tOver

/-- Outcome of a run whose function import path does not resolve. -/
def resNoImp : ProcResult := runResult r0 envNoImport tOk

/-- Outcome of a run whose payload is a list (shape-invalid input). -/
def resList : ProcResult := runResult r0 envEcho tListData

end Subfork

namespace Subfork

/-! ### Dictionary lemmas -/

theorem get_setKey_self (d : TaskData) (k : String) (v : Value) :
    get (setKey d k v) k = some v := by
  induction d with
  | nil => simp [setKey, get]
  | cons p rest ih =>
      obtain ⟨k0, v0⟩ := p
      by_cases hk : k0 = k
      · subst hk; simp [setKey, get]
      · simp [setKey, get, hk, ih]

theorem get_setKey_ne (d : TaskData) (k k2 : String) (v : Value) (h : k2 ≠ k) :
    get (setKey d k v) k2 = get d k2 := by
  induction d with
  | nil => simp [setKey, get, Ne.symm h]
  | cons p rest ih =>
      obtain ⟨k0, v0⟩ := p
      by_cases hk : k0 = k
      · subst hk
        have : k0 ≠ k2 := Ne.symm h
        simp [setKey, get, this]
      · by_cases hk2 : k0 = k2
        · subst hk2; simp [setKey, get, hk]
        · simp [setKey, get, hk, hk2, ih]

theorem get_num_failures_setKey_started (t : TaskData) (v : Value) :
    get_num_failures (setKey t ("started") v) = get_num_failures t := by
  unfold get_num_failures
  rw [get_setKey_ne _ _ _ _ (by decide)]

theorem get_worker_data_setKey_started (t : TaskData) (v : Value) :
    get_worker_data (setKey t ("started") v) = get_worker_data t := by
  unfold get_worker_data
  rw [get_setKey_ne _ _ _ _ (by decide)]

theorem get_started_after_func_worker (t : TaskData) (v a b : Value) :
    get (updateAll (setKey t ("started") v) [("func", a), ("worker", b)]) ("started")
      = some v := by
  simp only [updateAll, List.foldl]
  rw [get_setKey_ne _ _ _ _ (by decide), get_setKey_ne _ _ _ _ (by decide),
    get_setKey_self]

theorem get_finalTask_completed (t : TaskData) (c el e x f2 rs : Value) :
    get (updateAll t [("completed", c), ("elapsed_time", el), ("error", e),
      ("exitcode", x), ("failures", f2), ("results", rs)]) ("completed") = some c := by
  simp only [updateAll, List.foldl]
  rw [get_setKey_ne _ _ _ _ (by decide), get_setKey_ne _ _ _ _ (by decide),
    get_setKey_ne _ _ _ _ (by decide), get_setKey_ne _ _ _ _ (by decide),
    get_setKey_ne _ _ _ _ (by decide), get_setKey_self]

theorem get_finalTask_error (t : TaskData) (c el e x f2 rs : Value) :
    get (updateAll t [("completed", c), ("elapsed_time", el), ("error", e),
      ("exitcode", x), ("failures", f2), ("results", rs)]) ("error") = some e := by
  simp only [updateAll, List.foldl]
  rw [get_setKey_ne _ _ _ _ (by decide), get_setKey_ne _ _ _ _ (by decide),
    get_setKey_ne _ _ _ _ (by decide), get_setKey_self]

theorem get_finalTask_exitcode (t : TaskData) (c el e x f2 rs : Value) :
    get (updateAll t [("completed", c), ("elapsed_time", el), ("error", e),
      ("exitcode", x), ("failures", f2), ("results", rs)]) ("exitcode") = some x := by
  simp only [updateAll, List.foldl]
  rw [get_setKey_ne _ _ _ _ (by decide), get_setKey_ne _ _ _ _ (by decide),
    get_setKey_self]

theorem get_finalTask_failures (t : TaskData) (c el e x f2 rs : Value) :
    get (updateAll t [("completed", c), ("elapsed_time", el), ("error", e),
      ("exitcode", x), ("failures", f2), ("results", rs)]) ("failures") = some f2 := by
  simp only [updateAll, List.foldl]
  rw [get_setKey_ne _ _ _ _ (by decide), get_setKey_self]


theorem finallyCore_char (r : Runner) (env : Env) (t : TaskData) (success : Bool)
    (errMsg : Option String) (exitcode nPost : Int) (iv : Option Bool)
    (executed : Bool) (resStr : String) (s : Int) :
    (finallyCore r env t success errMsg exitcode nPost iv executed resStr s).dispatched = true
    ∧ (finallyCore r env t success errMsg exitcode nPost iv executed resStr s).executed = executed
    ∧ (finallyCore r env t success errMsg exitcode nPost iv executed resStr s).saveCalls = 1
    ∧ (finallyCore r env t success errMsg exitcode nPost iv executed resStr s).success = some success
    ∧ (finallyCore r env t success errMsg exitcode nPost iv executed resStr s).inputValid = iv
    ∧ (finallyCore r env t success errMsg exitcode nPost iv executed resStr s).failures = nPost
    ∧ get (finallyCore r env t success errMsg exitcode nPost iv executed resStr s).task ("error")
        = some (errValue errMsg)
    ∧ get (finallyCore r env t success errMsg exitcode nPost iv executed resStr s).task ("exitcode")
        = some (.int exitcode)
    ∧ get (finallyCore r env t success errMsg exitcode nPost iv executed resStr s).task ("failures")
        = some (.int nPost)
    ∧ get (finallyCore r env t success errMsg exitcode nPost iv executed resStr s).task ("completed")
        = some (.int env.now2)
    ∧ (finallyCore r env t success errMsg exitcode nPost iv executed resStr s).requeueCalls
        = (if !success && decide (nPost < r.limit) && decide (iv = some true) then 1 else 0)
    ∧ (finallyCore r env t success errMsg exitcode nPost iv executed resStr s).retval
        = some (if !success && decide (nPost < r.limit) && decide (iv = some true) then exitcode else 1) :=
  ⟨rfl, rfl, rfl, rfl, rfl, rfl, get_finalTask_error _ _ _ _ _ _ _,
    get_finalTask_exitcode _ _ _ _ _ _ _, get_finalTask_failures _ _ _ _ _ _ _,
    get_finalTask_completed _ _ _ _ _ _ _, rfl, rfl⟩

theorem requeue_if_conv (success : Bool) (nPost lim : Int) (iv : Option Bool) :
    (if !success && decide (nPost < lim) && decide (iv = some true) then (1 : Nat) else 0)
      = if some success = some false ∧ nPost < lim ∧ iv = some true then 1 else 0 := by
  cases success <;> by_cases h1 : nPost < lim <;> by_cases h2 : iv = some true <;>
    simp [h1, h2]

theorem finallyPart_master (r : Runner) (env : Env) (t : TaskData) (success : Bool)
    (errMsg : Option String) (exitcode nPost : Int) (iv : Option Bool)
    (executed : Bool) (results : Value) (res : ProcResult)
    (hx : exitcode = if success then (0 : Int) else 1)
    (h : finallyPart r env t success errMsg exitcode nPost iv executed results = .ok res) :
    res.dispatched = true ∧ res.saveCalls = 1 ∧ res.retval = some 1
    ∧ (∃ b, res.success = some b
        ∧ get res.task ("exitcode") = some (.int (if b then (0 : Int) else 1)))
    ∧ res.requeueCalls
        = (if res.success = some false ∧ res.failures < r.limit ∧ res.inputValid = some true
           then 1 else 0) := by
  unfold finallyPart at h
  split at h
  · split at h
    · exact Except.noConfusion h
    · injection h with h
      subst h
      obtain ⟨h1, h2, h3, h4, h5, h6, h7, h8, h9, h10, h11, h12⟩ :=
        finallyCore_char r env t success errMsg exitcode nPost iv executed _ _
      refine ⟨h1, h3, ?_, ⟨success, h4, ?_⟩, ?_⟩
      · rw [h12, hx]
        cases success <;> simp
      · rw [h8, hx]
      · rw [h11, h4, h6, h5, requeue_if_conv]
  · split at h
    · exact Except.noConfusion h
    · injection h with h
      subst h
      obtain ⟨h1, h2, h3, h4, h5, h6, h7, h8, h9, h10, h11, h12⟩ :=
        finallyCore_char r env t success errMsg exitcode nPost iv executed _ _
      refine ⟨h1, h3, ?_, ⟨success, h4, ?_⟩, ?_⟩
      · rw [h12, hx]
        cases success <;> simp
      · rw [h8, hx]
      · rw [h11, h4, h6, h5, requeue_if_conv]
  · exact Except.noConfusion h

theorem process_task_master (r : Runner) (env : Env) (t : TaskData) (res : ProcResult)
    (h : process_task r env t = .ok res) :
    (res.dispatched = false ∧ res.executed = false ∧ res.saveCalls = 0
      ∧ res.saveRequests = 0 ∧ res.requeueCalls = 0 ∧ res.retval = none
      ∧ res.success = none ∧ res.inputValid = none)
    ∨ (res.dispatched = true ∧ res.saveCalls = 1 ∧ res.retval = some 1
        ∧ (∃ b, res.success = some b
            ∧ get res.task ("exitcode") = some (.int (if b then (0 : Int) else 1)))
        ∧ res.requeueCalls
            = (if res.success = some false ∧ res.failures < r.limit ∧ res.inputValid = some true
               then 1 else 0)) := by
  unfold process_task at h
  split at h
  · injection h with h
    subst h
    left
    exact ⟨rfl, rfl, rfl, rfl, rfl, rfl, rfl, rfl⟩
  · unfold processBody at h
    split at h
    · split at h
      · injection h with h
        subst h
        left
        exact ⟨rfl, rfl, rfl, rfl, rfl, rfl, rfl, rfl⟩
      · split at h
        · right
          exact finallyPart_master _ _ _ _ _ _ _ _ _ _ _ (by simp) h
        · right
          exact finallyPart_master _ _ _ _ _ _ _ _ _ _ _ (by simp) h
    · exact Except.noConfusion h


/-! ### Polling (C5) -/

theorem get_tasks_loop_snd (iters : Nat) :
    ∀ (resp : List (Option TaskData)) (m : Nat),
      (get_tasks_loop iters resp m).map Prod.snd = (resp.take iters).filterMap id := by
  induction iters with
  | zero => intro resp m; simp [get_tasks_loop]
  | succ k ih =>
      intro resp m
      cases resp with
      | nil => simp [get_tasks_loop, ih]
      | cons o rest =>
          cases o with
          | none => simp [get_tasks_loop, ih]
          | some td => simp [get_tasks_loop, ih]

/-- C5: in one polling cycle the poller issues exactly
`min(queue_length, batch_size)` dequeue requests, yields at most that many
tasks, skips (does not count) empty dequeue results, and with 3 tasks in the
queue and batch size 2 dequeues exactly tasks 1 and 2 in cycle 1, leaving
one task for cycle 2, which dequeues it. -/
theorem claim_C5 :
    (∀ (qs cs : Nat) (resp : List (Option TaskData)),
      (get_tasks qs cs resp).map Prod.snd = (resp.take (min qs cs)).filterMap id
      ∧ (get_tasks qs cs resp).length ≤ min qs cs
      ∧ get_tasks_requests qs cs = min qs cs)
    ∧ (get_tasks_from_queue [tA, tB, tC] 2).1 = [(1, tA), (2, tB)]
    ∧ (get_tasks_from_queue [tA, tB, tC] 2).2 = [tC]
    ∧ (get_tasks_from_queue [tC] 2).1 = [(1, tC)]
    ∧ (get_tasks_from_queue [tC] 2).2 = [] := by
  refine ⟨?_, rfl, rfl, rfl, rfl⟩
  intro qs cs resp
  refine ⟨get_tasks_loop_snd _ _ _, ?_, rfl⟩
  calc (get_tasks qs cs resp).length
      = ((get_tasks qs cs resp).map Prod.snd).length := (List.length_map _ _).symm
    _ = ((resp.take (min qs cs)).filterMap id).length := by
        rw [get_tasks, get_tasks_loop_snd]
    _ ≤ (resp.take (min qs cs)).length := List.length_filterMap_le _ _
    _ ≤ min qs cs := List.length_take_le _ _

/-! ### is_done (C6) -/

/-- C6: `is_done()` returns true iff at least one of `completed`, `error`,
`exitcode` is present with a non-null value (presence semantics, not
truthiness: a task with `exitcode = 0` and nothing else counts as done), and
a freshly dequeued task with none of these fields is not done. -/
theorem claim_C6 :
    (∀ d : TaskData, is_done d = true ↔
      (presentNonNull d ("completed") = true ∨ presentNonNull d ("error") = true
        ∨ presentNonNull d ("exitcode") = true))
    ∧ is_done tExit0 = true
    ∧ is_done tFresh = false := by
  refine ⟨?_, rfl, rfl⟩
  intro d
  simp only [is_done, Bool.or_eq_true, or_assoc]
  exact Iff.rfl

/-! ### Task.save (C7) -/

/-- C7 counterexample: the claim glosses validity as requiring `results` to
be a string whenever present, but `is_valid_task` skips the type check for
falsy values: at `results = 0` (present, non-null, not a string) the task is
invalid per the gloss yet `save` sends the request and returns a refreshed
(truthy) task instead of being a no-op. -/
theorem claim_C7_cex :
    is_valid_task_spec tBadResults = false
    ∧ is_valid_task tBadResults = true
    ∧ save tBadResults (some tResp) = (1, some tResp) :=
  ⟨rfl, rfl, rfl⟩

/-- C7 (amended): `save` is a no-op returning a falsy result, sending no
request, whenever `is_valid()` is false at save time; otherwise it sends
exactly one request and returns a refreshed task when the response is a
valid task, a falsy result otherwise. Validity requires an `id` key,
`results` a string whenever it is truthy (present-but-falsy results of any
type are accepted), size within the 10,240-byte cap, and JSON
serializability. -/
theorem claim_C7_amended :
    (∀ (d : TaskData) (resp : Option TaskData),
      save d resp
        = (if is_valid_task d then 1 else 0,
           if is_valid_task d then
             (match resp with
              | some rd => if is_valid_task rd then some rd else none
              | none => none)
           else none))
    ∧ (∀ d : TaskData, is_valid_task d = true ↔ is_valid_task_amended d = true) := by
  constructor
  · intro d resp
    unfold save
    cases resp with
    | none => by_cases hv : is_valid_task d <;> simp [hv]
    | some rd =>
        by_cases hv : is_valid_task d <;> by_cases hr : is_valid_task rd <;>
          simp [hv, hr]
  · intro d
    unfold is_valid_task is_valid_task_amended
    by_cases hE : (d : List (String × Value)).isEmpty
    · have hid : get d ("id") = none := by
        cases d with
        | nil => rfl
        | cons p rest => simp [List.isEmpty] at hE
      simp [hE, hid]
    · simp only [hE, Bool.false_eq_true, if_false]
      cases hg : get d ("id") with
      | none => simp [hg]
      | some idv =>
          simp only [hg, Option.isNone_some, Bool.false_eq_true, if_false,
            Option.isSome_some, Bool.true_and]
          by_cases ht : truthy ((get d ("results")).getD .null) = true
          · by_cases hs : ((get d ("results")).getD .null).isStr = true
            · by_cases h3 : getsizeof d > TASK_MAX_BYTES
              · have h3a : decide (getsizeof d ≤ TASK_MAX_BYTES) = false := by
                  simp; omega
                simp [ht, hs, h3, h3a]
              · have h3a : decide (getsizeof d ≤ TASK_MAX_BYTES) = true := by
                  simp; omega
                simp [ht, hs, h3, h3a]
            · have hs0 : ((get d ("results")).getD .null).isStr = false := by
                simpa using hs
              simp [ht, hs0]
          · have ht0 : truthy ((get d ("results")).getD .null) = false := by
              simpa using ht
            by_cases h3 : getsizeof d > TASK_MAX_BYTES
            · have h3a : decide (getsizeof d ≤ TASK_MAX_BYTES) = false := by
                simp; omega
              simp [ht0, h3, h3a]
            · have h3a : decide (getsizeof d ≤ TASK_MAX_BYTES) = true := by
                simp; omega
              simp [ht0, h3, h3a]


/-! ### process_task reduction helpers -/

theorem process_task_dispatch (r : Runner) (env : Env) (t : TaskData) (n : Int)
    (hv : is_valid_task t = true)
    (hf : get_num_failures t = .int n)
    (hg : ¬(n ≠ 0 ∧ n > r.limit)) :
    process_task r env t
      = (match tryBody r env (setKey t ("started") (.int env.now1)) with
         | .ok t2 iv results =>
             finallyPart r env t2 true none 0 n (some iv) true results
         | .exn t2 iv executed msg =>
             finallyPart r env t2 false (some msg) 1 (n + 1) iv executed .null) := by
  have hf1 : get_num_failures (setKey t ("started") (.int env.now1)) = .int n := by
    rw [get_num_failures_setKey_started, hf]
  have hb : ((n != 0) && decide (n > r.limit)) = false := by
    simp only [Bool.and_eq_false_iff, bne_eq_false_iff_eq, decide_eq_false_iff_not]
    omega
  unfold process_task processBody
  simp only [hv, Bool.not_true, Bool.false_eq_true, if_false, hf1, hb]

theorem finallyPart_executed (r : Runner) (env : Env) (t : TaskData) (success : Bool)
    (errMsg : Option String) (exitcode nPost : Int) (iv : Option Bool)
    (executed : Bool) (results : Value) (res : ProcResult)
    (h : finallyPart r env t success errMsg exitcode nPost iv executed results = .ok res) :
    res.executed = executed := by
  unfold finallyPart at h
  split at h
  · split at h
    · exact Except.noConfusion h
    · injection h with h
      subst h
      rfl
  · split at h
    · exact Except.noConfusion h
    · injection h with h
      subst h
      rfl
  · exact Except.noConfusion h

theorem tryBody_exn_executed (r : Runner) (env : Env) (t1 : TaskData) (f : Func)
    (t2 : TaskData) (iv2 : Option Bool) (ex2 : Bool) (msg : String)
    (hi : env.importResult = some f)
    (h : tryBody r env t1 = .exn t2 iv2 ex2 msg) : ex2 = true := by
  unfold tryBody at h
  rw [hi] at h
  simp only [Option.isNone_some, Option.isSome_some, Bool.false_and, Bool.false_eq_true,
    if_false] at h
  cases hinv : invoke f (get_worker_data t1) with
  | ok v =>
      simp only [hinv] at h
      exact TryExit.noConfusion h
  | error e =>
      simp only [hinv] at h
      injection h with h1 h2 h3 h4
      exact h3.symm

theorem finallyPart_exn_fields (r : Runner) (env : Env) (t2 : TaskData) (msg : String)
    (nPost : Int) (iv : Option Bool) (executed : Bool) (res : ProcResult)
    (hst : ∃ s, get t2 ("started") = some (.int s))
    (h : finallyPart r env t2 false (some msg) 1 nPost iv executed .null = .ok res) :
    get res.task ("error") = some (.str msg)
    ∧ get res.task ("exitcode") = some (.int 1)
    ∧ get res.task ("failures") = some (.int nPost)
    ∧ get res.task ("completed") = some (.int env.now2)
    ∧ res.saveCalls = 1 ∧ res.failures = nPost ∧ res.success = some false
    ∧ res.executed = executed ∧ res.inputValid = iv
    ∧ res.requeueCalls = (if nPost < r.limit ∧ iv = some true then 1 else 0) := by
  obtain ⟨s, hs⟩ := hst
  simp only [finallyPart, hs, dumps] at h
  injection h with h
  subst h
  obtain ⟨c1, c2, c3, c4, c5, c6, c7, c8, c9, c10, c11, c12⟩ :=
    finallyCore_char r env t2 false (some msg) 1 nPost iv executed ("null") s
  refine ⟨c7, c8, c9, c10, c3, c6, c4, c2, c5, ?_⟩
  rw [c11]
  by_cases h1 : nPost < r.limit <;> by_cases h2 : iv = some true <;> simp [h1, h2]


/-! ### Claims about process_task -/

/-- C1: for every valid task whose execution attempt completes, a requeue
request is made iff the execution did not succeed, the post-increment
failures count is strictly below the runner limit, and the input was
shape-valid; in every other case no requeue call is made and exit code 1 is
returned to the caller. -/
theorem claim_C1 (r : Runner) (env : Env) (t : TaskData) (res : ProcResult)
    (h : process_task r env t = .ok res) (hd : res.dispatched = true) :
    (res.requeueCalls = 1 ↔
      (res.success = some false ∧ res.failures < r.limit ∧ res.inputValid = some true))
    ∧ (¬(res.success = some false ∧ res.failures < r.limit ∧ res.inputValid = some true) →
        res.requeueCalls = 0 ∧ res.retval = some 1) := by
  rcases process_task_master r env t res h with hc | hc
  · rw [hc.1] at hd
    exact absurd hd (by simp)
  · obtain ⟨-, -, hret, -, hreq⟩ := hc
    constructor
    · constructor
      · intro h1
        by_cases hcond : res.success = some false ∧ res.failures < r.limit
            ∧ res.inputValid = some true
        · exact hcond
        · rw [hreq, if_neg hcond] at h1
          exact absurd h1 (by decide)
      · intro hcond
        rw [hreq, if_pos hcond]
    · intro hcond
      rw [hreq, if_neg hcond]
      exact ⟨rfl, hret⟩

/-- C1 witness: the theorem applied to a concrete successful run. -/
theorem claim_C1_witness :
    (resEchoOk.requeueCalls = 1 ↔
      (resEchoOk.success = some false ∧ resEchoOk.failures < r0.limit
        ∧ resEchoOk.inputValid = some true))
    ∧ (¬(resEchoOk.success = some false ∧ resEchoOk.failures < r0.limit
        ∧ resEchoOk.inputValid = some true) →
        resEchoOk.requeueCalls = 0 ∧ resEchoOk.retval = some 1) :=
  claim_C1 r0 envEcho tOk resEchoOk rfl rfl

/-- C2 counterexample: a task over the retry budget (failures 5, limit 1) is
not executed, saved or requeued, but the call is not free of side effects on
the task: its `started` timestamp is set (locally) before the retry-budget
check. -/
theorem claim_C2_cex :
    get_num_failures tOver = .int 5 ∧ (5 : Int) > rLim1.limit
    ∧ resOver.executed = false ∧ resOver.saveCalls = 0 ∧ resOver.requeueCalls = 0
    ∧ get tOver ("started") = none
    ∧ get resOver.task ("started") = some (.int 100) :=
  ⟨rfl, by decide, rfl, rfl, rfl, rfl, rfl⟩

/-- C2 (amended): for every task whose failures count strictly exceeds the
limit at dispatch time, `process_task` performs no execution, no save
request and no requeue request and returns `None`; the only local side
effect is the `started` timestamp set before the retry-budget check. -/
theorem claim_C2_amended (r : Runner) (env : Env) (t : TaskData) (res : ProcResult) (n : Int)
    (h : process_task r env t = .ok res)
    (hv : is_valid_task t = true)
    (hf : get_num_failures t = .int n)
    (hn0 : n ≠ 0) (hlim : n > r.limit) :
    res.executed = false ∧ res.saveCalls = 0 ∧ res.saveRequests = 0
    ∧ res.requeueCalls = 0 ∧ res.retval = none
    ∧ res.task = setKey t ("started") (.int env.now1) := by
  have hf1 : get_num_failures (setKey t ("started") (.int env.now1)) = .int n := by
    rw [get_num_failures_setKey_started, hf]
  have hb : ((n != 0) && decide (n > r.limit)) = true := by simp [hn0, hlim]
  unfold process_task processBody at h
  simp only [hv, Bool.not_true, Bool.false_eq_true, if_false, hf1, hb, if_true] at h
  injection h with h
  subst h
  exact ⟨rfl, rfl, rfl, rfl, rfl, rfl⟩

/-- C2 witness: the amended theorem applied to the concrete over-budget
task. -/
theorem claim_C2_witness :
    resOver.executed = false ∧ resOver.saveCalls = 0 ∧ resOver.saveRequests = 0
    ∧ resOver.requeueCalls = 0 ∧ resOver.retval = none
    ∧ resOver.task = setKey tOver ("started") (.int envEcho.now1) :=
  claim_C2_amended rLim1 envEcho tOver resOver 5 rfl rfl rfl (by decide) (by decide)

/-- C3 counterexample: on a concrete failed execution within the retry
budget with shape-valid input, exactly one requeue call is made — but
`process_task` returns exit code 1 to its caller, the same non-zero
terminal signal as an abandoned task, contradicting the claim that the
requeue is the only failure signal. -/
theorem claim_C3_cex :
    resBoom.success = some false ∧ resBoom.failures < r0.limit
    ∧ resBoom.inputValid = some true
    ∧ resBoom.requeueCalls = 1 ∧ resBoom.retval = some 1 :=
  ⟨rfl, by decide, rfl, rfl, rfl⟩

/-- C3 (amended): for every failed execution with post-increment failures
below the limit and shape-valid input, exactly one requeue call is made,
and `process_task` additionally returns exit code 1 to its caller (which
ignores the return value). -/
theorem claim_C3_amended (r : Runner) (env : Env) (t : TaskData) (res : ProcResult)
    (h : process_task r env t = .ok res)
    (hd : res.dispatched = true)
    (hs : res.success = some false)
    (hfl : res.failures < r.limit)
    (hiv : res.inputValid = some true) :
    res.requeueCalls = 1 ∧ res.retval = some 1 := by
  rcases process_task_master r env t res h with hc | hc
  · rw [hc.1] at hd
    exact absurd hd (by simp)
  · obtain ⟨-, -, hret, -, hreq⟩ := hc
    rw [hreq, if_pos ⟨hs, hfl, hiv⟩]
    exact ⟨rfl, hret⟩

/-- C3 witness: the amended theorem applied to the concrete failing run. -/
theorem claim_C3_witness :
    resBoom.requeueCalls = 1 ∧ resBoom.retval = some 1 :=
  claim_C3_amended r0 envBoom tOk resBoom rfl rfl rfl (by decide) rfl

/-- C4: when the worker function raises, the task ends with `error` set to
the exception message, `exitcode` 1, `failures` incremented by exactly one,
`completed` set, and a save attempted; in particular with limit 2, prior
failures 0 and shape-valid input, a requeue is issued. -/
theorem claim_C4 (r : Runner) (env : Env) (t : TaskData) (res : ProcResult) (n : Int)
    (f : Func) (msg : String)
    (h : process_task r env t = .ok res)
    (hv : is_valid_task t = true)
    (hf : get_num_failures t = .int n)
    (hg : ¬(n ≠ 0 ∧ n > r.limit))
    (hi : env.importResult = some f)
    (hx : invoke f (get_worker_data t) = .error msg) :
    get res.task ("error") = some (.str msg)
    ∧ get res.task ("exitcode") = some (.int 1)
    ∧ get res.task ("failures") = some (.int (n + 1))
    ∧ get res.task ("completed") = some (.int env.now2)
    ∧ res.saveCalls = 1 ∧ res.failures = n + 1 ∧ res.success = some false
    ∧ (r.limit = 2 → n = 0 → res.inputValid = some true → res.requeueCalls = 1) := by
  rw [process_task_dispatch r env t n hv hf hg] at h
  have hx1 : invoke f (get_worker_data (setKey t ("started") (.int env.now1)))
      = .error msg := by
    rw [get_worker_data_setKey_started, hx]
  unfold tryBody at h
  rw [hi] at h
  simp only [Option.isNone_some, Option.isSome_some, Bool.false_and, Bool.false_eq_true,
    if_false, hx1] at h
  obtain ⟨e1, e2, e3, e4, e5, e6, e7, e8, e9, e10⟩ :=
    finallyPart_exn_fields r env _ msg (n + 1) _ true res
      ⟨env.now1, get_started_after_func_worker _ _ _ _⟩ h
  refine ⟨e1, e2, e3, e4, e5, e6, e7, ?_⟩
  intro hl hn hiv
  rw [e10, if_pos ⟨by omega, e9.symm.trans hiv⟩]

/-- C4 witness: the theorem applied to the concrete `boom`-raising run. -/
theorem claim_C4_witness :
    get resBoom.task ("error") = some (.str ("boom"))
    ∧ get resBoom.task ("exitcode") = some (.int 1)
    ∧ get resBoom.task ("failures") = some (.int (0 + 1))
    ∧ get resBoom.task ("completed") = some (.int envBoom.now2)
    ∧ resBoom.saveCalls = 1 ∧ resBoom.failures = 0 + 1 ∧ resBoom.success = some false
    ∧ (r0.limit = 2 → (0 : Int) = 0 → resBoom.inputValid = some true →
        resBoom.requeueCalls = 1) :=
  claim_C4 r0 envBoom tOk resBoom 0 fBoom ("boom") rfl rfl rfl (by decide) rfl rfl

/-- C9: when the function import path does not resolve, the execution branch
raises and the failure is captured identically in shape to a user-code
exception: `error` set, `exitcode` 1, `failures` incremented, `completed`
set, and a save attempted — without the worker function ever being
invoked. -/
theorem claim_C9 (r : Runner) (env : Env) (t : TaskData) (res : ProcResult) (n : Int)
    (h : process_task r env t = .ok res)
    (hv : is_valid_task t = true)
    (hf : get_num_failures t = .int n)
    (hg : ¬(n ≠ 0 ∧ n > r.limit))
    (hi : env.importResult = none) :
    res.success = some false ∧ res.executed = false
    ∧ get res.task ("error") = some (.str attrErr)
    ∧ get res.task ("exitcode") = some (.int 1)
    ∧ get res.task ("failures") = some (.int (n + 1))
    ∧ get res.task ("completed") = some (.int env.now2)
    ∧ res.saveCalls = 1 := by
  rw [process_task_dispatch r env t n hv hf hg] at h
  unfold tryBody at h
  rw [hi] at h
  simp only [Option.isNone_none, Option.isSome_none, Bool.and_false, Bool.false_eq_true,
    if_false] at h
  obtain ⟨e1, e2, e3, e4, e5, e6, e7, e8, e9, e10⟩ :=
    finallyPart_exn_fields r env _ attrErr (n + 1) none false res
      ⟨env.now1, get_setKey_self _ _ _⟩ h
  exact ⟨e7, e8, e1, e2, e3, e4, e5⟩

/-- C9 witness: the theorem applied to the concrete unresolvable-import
run. -/
theorem claim_C9_witness :
    resNoImp.success = some false ∧ resNoImp.executed = false
    ∧ get resNoImp.task ("error") = some (.str attrErr)
    ∧ get resNoImp.task ("exitcode") = some (.int 1)
    ∧ get resNoImp.task ("failures") = some (.int (0 + 1))
    ∧ get resNoImp.task ("completed") = some (.int envNoImport.now2)
    ∧ resNoImp.saveCalls = 1 :=
  claim_C9 r0 envNoImport tOk resNoImp 0 rfl rfl rfl (by decide) rfl

/-- C10: `process_task` never returns 0; on every dispatched run that
succeeds it returns 1 to its caller even though the task record receives
`exitcode = 0`. -/
theorem claim_C10 (r : Runner) (env : Env) (t : TaskData) (res : ProcResult)
    (h : process_task r env t = .ok res) :
    res.retval ≠ some 0
    ∧ (res.success = some true →
        res.retval = some 1 ∧ get res.task ("exitcode") = some (.int 0)) := by
  rcases process_task_master r env t res h with hc | hc
  · obtain ⟨-, -, -, -, -, hret, hsucc, -⟩ := hc
    constructor
    · rw [hret]
      simp
    · intro hs
      rw [hsucc] at hs
      exact Option.noConfusion hs
  · obtain ⟨-, -, hret, ⟨b, hb, hxc⟩, -⟩ := hc
    constructor
    · rw [hret]
      simp
    · intro hs
      rw [hb] at hs
      injection hs with hs
      subst hs
      exact ⟨hret, by simpa using hxc⟩

/-- C10 witness: the theorem applied to the concrete successful run. -/
theorem claim_C10_witness :
    resEchoOk.retval ≠ some 0
    ∧ (resEchoOk.success = some true →
        resEchoOk.retval = some 1
        ∧ get resEchoOk.task ("exitcode") = some (.int 0)) :=
  claim_C10 r0 envEcho tOk resEchoOk rfl

/-! ### Input validation (C8) -/

/-- C8 counterexample: a list of length 2 binds positionally to a
two-parameter function, so the spec-side validation accepts it, but
`validate_worker_input` only accepts tuples and dicts and reports it
invalid (a JSON array payload decodes to a Python list). -/
theorem claim_C8_cex :
    validate_input_spec sigAB (.arr [.int 1, .int 2]) = true
    ∧ validate_worker_input sigAB (.arr [.int 1, .int 2]) = false :=
  ⟨rfl, rfl⟩

/-- C8 (amended): `validate_worker_input` returns true iff the data is a
tuple that binds positionally or a dict that binds as keyword arguments
(lists and other sequences are invalid); an invalid result never blocks
execution — whenever the import resolved and the task was dispatched, the
worker function call is still attempted. -/
theorem claim_C8_amended :
    (∀ (sig : Sig) (data : Value),
      validate_worker_input sig data = true ↔
        ((∃ xs, data = .tup xs ∧ bindPos sig xs.length = true)
          ∨ (∃ kvs, data = .obj kvs ∧ bindKw sig (kvs.map Prod.fst) = true)))
    ∧ (∀ (r : Runner) (env : Env) (t : TaskData) (res : ProcResult) (f : Func),
        process_task r env t = .ok res → env.importResult = some f →
        res.dispatched = true → res.inputValid = some false → res.executed = true) := by
  constructor
  · intro sig data
    cases data <;> simp [validate_worker_input]
  · intro r env t res f h hi hd hiv
    unfold process_task at h
    split at h
    · injection h with h
      subst h
      simp [noopResult] at hd
    · unfold processBody at h
      split at h
      · split at h
        · injection h with h
          subst h
          simp [noopResult] at hd
        · split at h
          · exact finallyPart_executed _ _ _ _ _ _ _ _ _ _ _ h
          · next t2 iv2 ex2 msg heq =>
              have hex2 : ex2 = true :=
                tryBody_exn_executed r env _ f t2 iv2 ex2 msg hi heq
              have hexec := finallyPart_executed _ _ _ _ _ _ _ _ _ _ _ h
              rw [hexec, hex2]
      · exact Except.noConfusion h

/-- C8 witness: the execution clause applied to a concrete run with a list
payload, which is reported shape-invalid yet still executed. -/
theorem claim_C8_witness : resList.executed = true :=
  claim_C8_amended.2 r0 envEcho tListData resList fEcho rfl rfl rfl rfl

end Subfork
